import Mathlib

/-!
Shallow embedding of the authentication and session-token lifecycle subsystem
of the `user_management_api` Go repository, together with theorems settling
the behavioural claims about it.

Scope of the embedding (file ↦ Lean definitions):
* `internal/auth/auth.go` — `HashPassword`, `ComparePasswords`,
  `GenerateTokenPair`, `ValidateRefreshToken`.
* `internal/handlers/auth_handler.go` — `Login`, `RefreshToken`, `Logout`.
* `cmd/api/main.go` — route wiring of `/auth/logout` and `/admin/*` behind the
  auth / admin middleware.
* `internal/models/models.go` — `User`, `RefreshToken` records; the database is
  modelled as explicit state (lists of rows) threaded through each handler.

Cryptographic primitives are idealised in the standard way:
* HMAC-SHA256 (JWT HS256 signing) is modelled as an injective function of the
  pair (secret, payload): a signature value is the pair itself, so signature
  verification succeeds exactly when the verifying secret and the signed
  payload coincide with those used at signing time.  Collisions across
  distinct secrets or payloads are assumed never to occur.
* bcrypt is modelled as an injective salted function of (salt, password); the
  salt is threaded explicitly where the Go library draws it from an entropy
  source.
Time is a `Nat` of Unix seconds, threaded explicitly where the Go code calls
`time.Now()`; JWT claims carry second-granularity absolute expiries exactly as
`GenerateTokenPair` computes them (`now + 60*accessExpiry` minutes,
`now + 86400*refreshExpiry` days).
-/

namespace UserManagementAPI

/-- Claim set of an access token: `GenerateTokenPair` (auth.go:31-34) sets
exactly `userID`, `role` and `exp` on the access token. -/
structure AccessClaims where
  userID : Nat
  role : String
  exp : Nat
deriving DecidableEq, Repr

/-- Claim set of a refresh token: `GenerateTokenPair` (auth.go:43-45) sets
exactly `userID` and `exp` on the refresh token — no role claim. -/
structure RefreshClaims where
  userID : Nat
  exp : Nat
deriving DecidableEq, Repr

/-- A JWT payload is one of the two claim shapes issued by the program. -/
inductive Payload where
  | access (claims : AccessClaims)
  | refresh (claims : RefreshClaims)
deriving DecidableEq, Repr

/-- The `userID` claim, present in both payload shapes (read by
`ValidateRefreshToken` via `claims["userID"]`, auth.go:72). -/
def Payload.userID : Payload → Nat
  | .access c => c.userID
  | .refresh c => c.userID

/-- The `exp` claim, present in both payload shapes (checked by
`jwt.Parse` during validation). -/
def Payload.exp : Payload → Nat
  | .access c => c.exp
  | .refresh c => c.exp

/-- A signed token string.  `sig` is the idealised HMAC-SHA256 tag: an
injective function of the signing secret and the signed payload. -/
structure Jwt where
  payload : Payload
  sig : String × Payload
deriving DecidableEq, Repr

/-- `token.SignedString([]byte(secret))` (auth.go:36,47) under the idealised
MAC: the tag records the secret and payload used at signing time. -/
def signedString (secret : String) (p : Payload) : Jwt :=
  { payload := p, sig := (secret, p) }

/-- Signature verification performed by `jwt.Parse` with a key function
returning `secret`: recompute the tag over the presented payload and compare. -/
def jwtVerify (t : Jwt) (secret : String) : Bool :=
  t.sig = (secret, t.payload)

/-- A bcrypt digest: the salt together with the idealised one-way image of
(salt, password). -/
structure Digest where
  salt : Nat
  body : Nat × String
deriving DecidableEq, Repr

/-- `HashPassword` (auth.go:16-22): `bcrypt.GenerateFromPassword` with a fresh
salt, modelled with the salt passed explicitly. -/
def hashPassword (salt : Nat) (password : String) : Digest :=
  { salt := salt, body := (salt, password) }

/-- `ComparePasswords` (auth.go:24-26): `bcrypt.CompareHashAndPassword`
re-derives the digest body from the stored salt and the candidate password and
compares; `true` means match (the Go function returns a nil error). -/
def comparePasswords (digest : Digest) (password : String) : Bool :=
  digest.body = (digest.salt, password)

/-- `TokenPair` (auth.go:11-14). -/
structure TokenPair where
  accessToken : Jwt
  refreshToken : Jwt
deriving DecidableEq, Repr

/-- `GenerateTokenPair` (auth.go:28-56): the access token signs
`{userID, role, exp := now + accessExpiry minutes}` with the access secret;
the refresh token signs `{userID, exp := now + refreshExpiry days}` with the
refresh secret.  Signing is infallible in the idealised model. -/
def generateTokenPair (now : Nat) (userID : Nat) (role : String)
    (accessSecret refreshSecret : String) (accessExpiry refreshExpiry : Nat) :
    TokenPair :=
  { accessToken :=
      signedString accessSecret (.access ⟨userID, role, now + 60 * accessExpiry⟩)
    refreshToken :=
      signedString refreshSecret (.refresh ⟨userID, now + 86400 * refreshExpiry⟩) }

/-- `ValidateRefreshToken` (auth.go:58-78): `jwt.Parse` with the refresh
secret checks the signature and the `exp` claim against the current time, then
the `userID` claim is extracted.  Returns `some userID` on success, `none` on
any failure (the Go function returns an error). -/
def validateRefreshToken (now : Nat) (tokenString : Jwt) (refreshSecret : String) :
    Option Nat :=
  if jwtVerify tokenString refreshSecret ∧ now < tokenString.payload.exp then
    some tokenString.payload.userID
  else
    none

/-- `models.User` (models.go:9-16), restricted to the fields the auth
subsystem reads.  `id` is the gorm primary key. -/
structure User where
  id : Nat
  email : String
  username : String
  passwordHash : Digest
  role : String
deriving DecidableEq, Repr

/-- `models.RefreshToken` (models.go:18-23): the persisted Session Record.
`tokenHash` stores the raw refresh token (auth_handler.go:164 stores
`tokens.RefreshToken` unhashed). -/
structure RefreshTokenRecord where
  id : Nat
  userID : Nat
  tokenHash : Jwt
  expiresAt : Nat
deriving DecidableEq, Repr

/-- The database visible to the auth subsystem: the `users` and
`refresh_tokens` tables, rows in primary-key order, plus the next primary key.
gorm's `First` returns the lowest-id matching row and `Delete` on a fetched
row removes it by primary key. -/
structure DB where
  users : List User
  tokens : List RefreshTokenRecord
  nextID : Nat
deriving DecidableEq, Repr

/-- The JWT configuration threaded into `AuthHandler` (auth_handler.go:18-23):
access/refresh secrets and lifetimes (minutes / days). -/
structure Config where
  accessSecret : String
  refreshSecret : String
  accessExpiry : Nat
  refreshExpiry : Nat
deriving DecidableEq, Repr

/-- Outcome of the `RefreshToken` handler, tagged by status and body:
`okPair` is the 200 response carrying the new pair; `invalidRefreshToken` is
401 `{"error": "Invalid refresh token"}` (auth_handler.go:215,222);
`userNotFound` is 401 `{"error": "User not found"}` (auth_handler.go:229). -/
inductive RefreshResponse where
  | okPair (accessToken refreshToken : Jwt)
  | invalidRefreshToken
  | userNotFound
deriving DecidableEq, Repr

/-- `AuthHandler.RefreshToken` (auth_handler.go:202-269) on an
already-bound request body holding `rt`:
1. validate the token with the refresh secret (401 on failure);
2. look up the row with `token_hash = rt AND user_id = userID` (401 on
   absence);
3. fetch the user by primary key (401 "User not found" on absence);
4. generate a new pair from the user's current id and role;
5. delete the fetched row by primary key (a failure here is only logged in
   the Go code; in the pure store model deletion succeeds);
6. insert the new Session Record; respond 200 with the new pair. -/
def refreshSession (cfg : Config) (now : Nat) (db : DB) (rt : Jwt) :
    RefreshResponse × DB :=
  match validateRefreshToken now rt cfg.refreshSecret with
  | none => (.invalidRefreshToken, db)
  | some userID =>
    match db.tokens.find? (fun r => decide (r.tokenHash = rt ∧ r.userID = userID)) with
    | none => (.invalidRefreshToken, db)
    | some storedToken =>
      match db.users.find? (fun u => decide (u.id = userID)) with
      | none => (.userNotFound, db)
      | some user =>
        let tokens := generateTokenPair now user.id user.role
          cfg.accessSecret cfg.refreshSecret cfg.accessExpiry cfg.refreshExpiry
        let afterDelete := db.tokens.filter (fun r => decide (¬ r.id = storedToken.id))
        let newRecord : RefreshTokenRecord :=
          { id := db.nextID, userID := user.id, tokenHash := tokens.refreshToken
            expiresAt := now + 86400 * cfg.refreshExpiry }
        (.okPair tokens.accessToken tokens.refreshToken,
          { db with tokens := afterDelete ++ [newRecord], nextID := db.nextID + 1 })

/-- Outcome of the `Login` handler: `ok` is the 200 response
(auth_handler.go:178-187); `err status body` covers the 401
`{"error": "Invalid credentials"}` responses. -/
inductive LoginResponse where
  | ok (accessToken refreshToken : Jwt) (id : Nat) (email username role : String)
  | err (status : Nat) (body : String)
deriving DecidableEq, Repr

/-- Account lookup in `Login` (auth_handler.go:126-136): by email when the
login field contains `@` (`strings.Contains(input.Login, "@")`, stated over
the string's character list), otherwise by username. -/
def lookupLoginUser (db : DB) (loginName : String) : Option User :=
  if loginName.data.contains '@' then
    db.users.find? (fun u => decide (u.email = loginName))
  else
    db.users.find? (fun u => decide (u.username = loginName))

/-- `AuthHandler.Login` (auth_handler.go:114-188) on an already-bound body,
with the bcrypt salt for the freshly issued pair threaded explicitly:
unknown account → 401 "Invalid credentials"; wrong password → 401
"Invalid credentials"; otherwise issue a pair, persist the refresh half as a
Session Record, respond 200. -/
def login (cfg : Config) (now : Nat) (db : DB) (loginName password : String) :
    LoginResponse × DB :=
  match lookupLoginUser db loginName with
  | none => (.err 401 "Invalid credentials", db)
  | some user =>
    if comparePasswords user.passwordHash password then
      let tokens := generateTokenPair now user.id user.role
        cfg.accessSecret cfg.refreshSecret cfg.accessExpiry cfg.refreshExpiry
      let newRecord : RefreshTokenRecord :=
        { id := db.nextID, userID := user.id, tokenHash := tokens.refreshToken
          expiresAt := now + 86400 * cfg.refreshExpiry }
      (.ok tokens.accessToken tokens.refreshToken user.id user.email
        user.username user.role,
        { db with tokens := db.tokens ++ [newRecord], nextID := db.nextID + 1 })
    else
      (.err 401 "Invalid credentials", db)

/-- Outcome of the `Logout` handler: it responds 200
`{"message": "Successfully logged out"}` whenever the delete statement runs
(auth_handler.go:301), matching zero rows included. -/
inductive LogoutResponse where
  | success
deriving DecidableEq, Repr

/-- `AuthHandler.Logout` (auth_handler.go:284-302) on an already-bound body:
`Where("token_hash = ?", rt).Delete(...)` removes every Session Record whose
`token_hash` equals the supplied token (no user filter), then responds 200.
Deleting zero rows is not an error. -/
def logout (db : DB) (rt : Jwt) : LogoutResponse × DB :=
  (.success, { db with tokens := db.tokens.filter (fun r => decide (¬ r.tokenHash = rt)) })

/-- Result of the request-time auth gate: either rejection with 401 or the
verified `{identity, role}` bound into the request context. -/
inductive AuthGateResult where
  | unauthorized
  | ok (userID : Nat) (role : String)
deriving DecidableEq, Repr

/-- Modelled from the spec: `middleware.AuthMiddleware` lives in
`internal/middleware/auth.go`, which is not among the provided source files —
only its call sites in `cmd/api/main.go` are.  Per spec §4.5 the gate
extracts the bearer token from the Authorization header (missing or malformed
header → Unauthorized), verifies it via the Token Codec with the access
secret (expired or bad signature → Unauthorized), and on success binds
`{identity, role}` into the request context.  A payload lacking the expected
access-token shape (no role claim) is Malformed per §4.2 and rejected. -/
def authGate (accessSecret : String) (now : Nat) (header : Option Jwt) :
    AuthGateResult :=
  match header with
  | none => .unauthorized
  | some t =>
    if jwtVerify t accessSecret ∧ now < t.payload.exp then
      match t.payload with
      | .access c => .ok c.userID c.role
      | .refresh _ => .unauthorized
    else
      .unauthorized

/-- Outcome of dispatching a protected admin route: 401 from the auth gate,
403 from the role gate, or the handler running with the bound identity. -/
inductive RouteResult where
  | unauthorized
  | forbidden
  | handled (userID : Nat)
deriving DecidableEq, Repr

/-- Modelled from the spec: `middleware.AdminMiddleware` is likewise absent
from the provided sources.  Per spec §4.6 the role gate composes strictly
after the auth gate and compares the bound role against the required role
`admin` (mismatch → Forbidden); `main.go:226` chains
`AuthMiddleware(accessSecret)` then `AdminMiddleware()` on the `/admin`
group. -/
def adminRoute (accessSecret : String) (now : Nat) (header : Option Jwt) :
    RouteResult :=
  match authGate accessSecret now header with
  | .unauthorized => .unauthorized
  | .ok uid role => if role = "admin" then .handled uid else .forbidden

/-- Outcome of a request to `POST /auth/logout`: 401 from the auth gate, or
the logout handler's response. -/
inductive LogoutRouteResponse where
  | unauthorized
  | done (r : LogoutResponse)
deriving DecidableEq, Repr

/-- The `/auth/logout` route as wired in `main.go:211`:
`middleware.AuthMiddleware(cfg.JWT.AccessSecret)` runs first and aborts with
401 before `authHandler.Logout` touches the store; the gate itself is
modelled from the spec (see `authGate`). -/
def logoutRoute (cfg : Config) (now : Nat) (header : Option Jwt) (rt : Jwt)
    (db : DB) : LogoutRouteResponse × DB :=
  match authGate cfg.accessSecret now header with
  | .unauthorized => (.unauthorized, db)
  | .ok _ _ =>
    let res := logout db rt
    (.done res.1, res.2)

/-- The refresh token returned by a refresh response, when successful. -/
def RefreshResponse.returnedRefresh? : RefreshResponse → Option Jwt
  | .okPair _ r => some r
  | _ => none

/-- Concrete fixture: the JWT configuration used in concrete evaluations. -/
def testCfg : Config :=
  { accessSecret := "access-secret", refreshSecret := "refresh-secret"
    accessExpiry := 15, refreshExpiry := 7 }

/-- Concrete fixture: a registered user with role `user`. -/
def testUser : User :=
  { id := 1, email := "alice@example.com", username := "alice"
    passwordHash := hashPassword 5 "password123", role := "user" }

/-- Concrete fixture: the refresh token issued to `testUser` at time 100. -/
def rt100 : Jwt :=
  (generateTokenPair 100 1 "user" "access-secret" "refresh-secret" 15 7).refreshToken

/-- Concrete fixture: the refresh token issued to `testUser` at time 50. -/
def rt50 : Jwt :=
  (generateTokenPair 50 1 "user" "access-secret" "refresh-secret" 15 7).refreshToken

/-- Concrete fixture: store state after a login at time 100 — one Session
Record backing `rt100`. -/
def testDB : DB :=
  { users := [testUser], tokens := [⟨1, 1, rt100, 100 + 86400 * 7⟩], nextID := 2 }

/-- Concrete fixture: store state after a login at time 50 — one Session
Record backing `rt50`. -/
def testDB50 : DB :=
  { users := [testUser], tokens := [⟨1, 1, rt50, 50 + 86400 * 7⟩], nextID := 2 }

/-- Concrete fixture: a store with no accounts and no Session Records. -/
def emptyDB : DB :=
  { users := [], tokens := [], nextID := 1 }

/-- On success, `ValidateRefreshToken` returns exactly the `userID` claim of
the presented token (auth.go:72-77). -/
theorem validateRefreshToken_userID (now : Nat) (t : Jwt) (s : String) (uid : Nat)
    (h : validateRefreshToken now t s = some uid) : uid = t.payload.userID := by
  unfold validateRefreshToken at h
  split at h
  · exact (Option.some.inj h).symm
  · exact absurd h (by simp)

/-- C5: for every claim set, a token signed with the access secret fails
verification under the refresh secret and vice versa, whenever the two
secrets are distinct; in particular `ValidateRefreshToken` rejects the access
half of any issued pair. -/
theorem cross_secret_rejection (now now2 uid : Nat) (role aS rS : String)
    (aE rE : Nat) (h : aS ≠ rS) :
    jwtVerify (generateTokenPair now uid role aS rS aE rE).accessToken rS = false ∧
    jwtVerify (generateTokenPair now uid role aS rS aE rE).refreshToken aS = false ∧
    validateRefreshToken now2 (generateTokenPair now uid role aS rS aE rE).accessToken rS = none := by
  refine ⟨?_, ?_, ?_⟩ <;>
    simp [generateTokenPair, signedString, jwtVerify, validateRefreshToken,
      Prod.ext_iff, h, Ne.symm h]

/-- Witness for C5 at concrete distinct secrets. -/
theorem cross_secret_rejection_witness :
    "access-secret" ≠ "refresh-secret" ∧
    (jwtVerify (generateTokenPair 100 1 "user" "access-secret" "refresh-secret" 15 7).accessToken
        "refresh-secret" = false ∧
      jwtVerify (generateTokenPair 100 1 "user" "access-secret" "refresh-secret" 15 7).refreshToken
        "access-secret" = false ∧
      validateRefreshToken 100
        (generateTokenPair 100 1 "user" "access-secret" "refresh-secret" 15 7).accessToken
        "refresh-secret" = none) :=
  ⟨by decide, cross_secret_rejection 100 100 1 "user" "access-secret" "refresh-secret" 15 7
    (by decide)⟩

/-- C6: a valid, unexpired access token carrying role `user` presented to an
admin route is rejected by the role gate as Forbidden, not Unauthorized: the
auth gate has already bound the identity before the role comparison runs. -/
theorem user_token_on_admin_route_forbidden (now now2 uid : Nat) (aS rS : String)
    (aE rE : Nat) (h : now2 < now + 60 * aE) :
    adminRoute aS now2 (some (generateTokenPair now uid "user" aS rS aE rE).accessToken) =
      RouteResult.forbidden := by
  simp [adminRoute, authGate, generateTokenPair, signedString, jwtVerify, Payload.exp, h]

/-- Witness for C6 at a concrete unexpired access token. -/
theorem user_token_on_admin_route_forbidden_witness :
    10 < 0 + 60 * 15 ∧
    adminRoute "access-secret" 10
      (some (generateTokenPair 0 1 "user" "access-secret" "refresh-secret" 15 7).accessToken) =
      RouteResult.forbidden :=
  ⟨by decide, user_token_on_admin_route_forbidden 0 10 1 "access-secret" "refresh-secret" 15 7
    (by decide)⟩

/-- C7: `Logout` responds success unconditionally (absence of a matching
record included), removes exactly the Session Records whose token material
equals the supplied refresh token, is idempotent, and afterwards
`RefreshToken` rejects that token as invalid. -/
theorem logout_deletes_and_idempotent (cfg : Config) (now : Nat) (db : DB) (rt : Jwt) :
    (logout db rt).1 = LogoutResponse.success ∧
    (logout db rt).2.tokens = db.tokens.filter (fun r => decide (¬ r.tokenHash = rt)) ∧
    logout (logout db rt).2 rt = logout db rt ∧
    (refreshSession cfg now (logout db rt).2 rt).1 = RefreshResponse.invalidRefreshToken := by
  refine ⟨rfl, rfl, ?_, ?_⟩
  · simp [logout, List.filter_filter]
  · unfold refreshSession
    cases hv : validateRefreshToken now rt cfg.refreshSecret with
    | none => simp
    | some uid =>
      have hnone : (logout db rt).2.tokens.find?
          (fun r => decide (r.tokenHash = rt ∧ r.userID = uid)) = none := by
        rw [List.find?_eq_none]
        intro x hx
        simp only [logout, List.mem_filter, decide_eq_true_eq] at hx
        simp [hx.2]
      dsimp only
      rw [hnone]

/-- C8: bcrypt round-trip — verifying a password against its own hash
succeeds, and verifying any other password against that hash fails. -/
theorem password_roundtrip (salt : Nat) (p p2 : String) (h : p2 ≠ p) :
    comparePasswords (hashPassword salt p) p = true ∧
    comparePasswords (hashPassword salt p) p2 = false := by
  constructor
  · simp [comparePasswords, hashPassword]
  · simp [comparePasswords, hashPassword, Ne.symm h]

/-- Witness for C8 at concrete distinct passwords. -/
theorem password_roundtrip_witness :
    "letmein" ≠ "password123" ∧
    (comparePasswords (hashPassword 5 "password123") "password123" = true ∧
      comparePasswords (hashPassword 5 "password123") "letmein" = false) :=
  ⟨by decide, password_roundtrip 5 "password123" "letmein" (by decide)⟩

/-- C9: the two failed-login paths — unknown account, and known account with
a wrong password — produce the identical externally visible response: status
401 with body `Invalid credentials`. -/
theorem login_failure_indistinguishable (cfg1 cfg2 : Config) (now1 now2 : Nat)
    (db1 db2 : DB) (l1 pw1 l2 pw2 : String) (u : User)
    (h1 : lookupLoginUser db1 l1 = none)
    (h2 : lookupLoginUser db2 l2 = some u)
    (h3 : comparePasswords u.passwordHash pw2 = false) :
    (login cfg1 now1 db1 l1 pw1).1 = LoginResponse.err 401 "Invalid credentials" ∧
    (login cfg2 now2 db2 l2 pw2).1 = (login cfg1 now1 db1 l1 pw1).1 := by
  unfold login
  rw [h1, h2]
  simp [h3]

/-- Witness for C9: empty store versus `alice` with the wrong password. -/
theorem login_failure_indistinguishable_witness :
    lookupLoginUser emptyDB "bob" = none ∧
    lookupLoginUser testDB "alice" = some testUser ∧
    comparePasswords testUser.passwordHash "letmein" = false ∧
    ((login testCfg 100 emptyDB "bob" "anything").1 =
        LoginResponse.err 401 "Invalid credentials" ∧
      (login testCfg 200 testDB "alice" "letmein").1 =
        (login testCfg 100 emptyDB "bob" "anything").1) :=
  ⟨by decide, by decide, by decide,
    login_failure_indistinguishable testCfg testCfg 100 200 emptyDB testDB
      "bob" "anything" "alice" "letmein" testUser (by decide) (by decide) (by decide)⟩

/-- C10: a logout request whose Authorization header fails the access-token
auth gate is answered Unauthorized and leaves the store untouched, whatever
refresh token the body carries. -/
theorem logout_requires_auth (cfg : Config) (now : Nat) (header : Option Jwt)
    (rt : Jwt) (db : DB)
    (h : authGate cfg.accessSecret now header = AuthGateResult.unauthorized) :
    logoutRoute cfg now header rt db = (LogoutRouteResponse.unauthorized, db) := by
  unfold logoutRoute
  rw [h]

/-- Witness for C10: a logout request with no Authorization header and a
refresh token that does have a matching Session Record. -/
theorem logout_requires_auth_witness :
    authGate testCfg.accessSecret 100 none = AuthGateResult.unauthorized ∧
    logoutRoute testCfg 100 none rt100 testDB =
      (LogoutRouteResponse.unauthorized, testDB) :=
  ⟨rfl, logout_requires_auth testCfg 100 none rt100 testDB rfl⟩

/-- C4: when the presented refresh token itself validates (signature and
expiry), the handler answers 401 Invalid refresh token exactly when no
Session Record matching (identity from the claims, token material) exists —
absence of the persisted record revokes the token. -/
theorem refresh_rejected_iff_no_record (cfg : Config) (now : Nat) (db : DB)
    (rt : Jwt) (uid : Nat)
    (h : validateRefreshToken now rt cfg.refreshSecret = some uid) :
    ((refreshSession cfg now db rt).1 = RefreshResponse.invalidRefreshToken ↔
      db.tokens.find? (fun r => decide (r.tokenHash = rt ∧ r.userID = uid)) = none) := by
  unfold refreshSession
  rw [h]
  dsimp only
  cases hf : db.tokens.find? (fun r => decide (r.tokenHash = rt ∧ r.userID = uid)) with
  | none => simp
  | some storedToken =>
    cases hu : db.users.find? (fun u => decide (u.id = uid)) with
    | none => simp
    | some user => simp

/-- Witness for C4: `rt100` validates at time 100 but the store is empty, and
the refresh is indeed rejected. -/
theorem refresh_rejected_iff_no_record_witness :
    validateRefreshToken 100 rt100 testCfg.refreshSecret = some 1 ∧
    ((refreshSession testCfg 100 emptyDB rt100).1 = RefreshResponse.invalidRefreshToken ↔
      emptyDB.tokens.find? (fun r => decide (r.tokenHash = rt100 ∧ r.userID = 1)) = none) :=
  ⟨by decide, refresh_rejected_iff_no_record testCfg 100 emptyDB rt100 1 (by decide)⟩

/-- C3: the refresh token half of every issued pair carries exactly the
claims `{userID, exp}` — the `RefreshClaims` shape has no role field — and on
a successful refresh the new access token's role is the role of the user
re-read from the store for the token's identity, never a value carried by the
presented refresh token. -/
theorem refresh_claims_minimal_and_role_refetched
    (now uid : Nat) (role aS rS : String) (aE rE : Nat)
    (cfg : Config) (now2 : Nat) (db db2 : DB) (rt a2 r2 : Jwt) (user : User)
    (h1 : refreshSession cfg now2 db rt = (.okPair a2 r2, db2))
    (h2 : db.users.find? (fun u => decide (u.id = rt.payload.userID)) = some user) :
    (generateTokenPair now uid role aS rS aE rE).refreshToken.payload =
      Payload.refresh ⟨uid, now + 86400 * rE⟩ ∧
    a2.payload = Payload.access ⟨user.id, user.role, now2 + 60 * cfg.accessExpiry⟩ := by
  refine ⟨rfl, ?_⟩
  unfold refreshSession at h1
  cases hv : validateRefreshToken now2 rt cfg.refreshSecret with
  | none => rw [hv] at h1; exact absurd h1 (by simp)
  | some uid' =>
    rw [hv] at h1
    dsimp only at h1
    have huid : uid' = rt.payload.userID := validateRefreshToken_userID _ _ _ _ hv
    subst huid
    cases hf : db.tokens.find?
        (fun r => decide (r.tokenHash = rt ∧ r.userID = rt.payload.userID)) with
    | none => rw [hf] at h1; exact absurd h1 (by simp)
    | some storedToken =>
      rw [hf] at h1
      dsimp only at h1
      rw [h2] at h1
      simp only [Prod.mk.injEq, RefreshResponse.okPair.injEq] at h1
      obtain ⟨⟨ha, -⟩, -⟩ := h1
      rw [← ha]
      rfl

/-- Witness for C3: the concrete rotation of `rt100` re-reads `testUser`'s
role from the store. -/
theorem refresh_claims_minimal_and_role_refetched_witness :
    refreshSession testCfg 100 testDB rt100 =
      (RefreshResponse.okPair (signedString "access-secret" (.access ⟨1, "user", 1000⟩))
        rt100,
        { users := [testUser], tokens := [⟨2, 1, rt100, 604900⟩], nextID := 3 }) ∧
    testDB.users.find? (fun u => decide (u.id = rt100.payload.userID)) = some testUser ∧
    ((generateTokenPair 100 1 "user" "access-secret" "refresh-secret" 15 7).refreshToken.payload =
        Payload.refresh ⟨1, 100 + 86400 * 7⟩ ∧
      (signedString "access-secret" (.access ⟨1, "user", 1000⟩)).payload =
        Payload.access ⟨testUser.id, testUser.role, 100 + 60 * testCfg.accessExpiry⟩) :=
  ⟨by decide, by decide,
    refresh_claims_minimal_and_role_refetched 100 1 "user" "access-secret" "refresh-secret"
      15 7 testCfg 100 testDB
      { users := [testUser], tokens := [⟨2, 1, rt100, 604900⟩], nextID := 3 }
      rt100 (signedString "access-secret" (.access ⟨1, "user", 1000⟩)) rt100 testUser
      (by decide) (by decide)⟩

/-- Counterexample to C2 as stated: rotating `rt100` at time 100 — the same
second it was issued — succeeds and hands back `rt100` itself, because the
new refresh token signs the identical `{userID, exp}` claim set with the same
secret. -/
theorem refresh_returns_same_token_counterexample :
    RefreshResponse.returnedRefresh? (refreshSession testCfg 100 testDB rt100).1 =
      some rt100 := by
  decide

/-- C2 (amended): a successful refresh returns a refresh token different from
the consumed one whenever the new expiry `now + refresh lifetime` differs
from the consumed token's `exp` claim — that is, whenever the rotation does
not happen in the very second the consumed token was issued. -/
theorem refresh_token_rotates_to_distinct (cfg : Config) (now : Nat) (db db2 : DB)
    (rt a2 r2 : Jwt)
    (h1 : refreshSession cfg now db rt = (.okPair a2 r2, db2))
    (h2 : now + 86400 * cfg.refreshExpiry ≠ rt.payload.exp) :
    r2 ≠ rt := by
  unfold refreshSession at h1
  cases hv : validateRefreshToken now rt cfg.refreshSecret with
  | none => rw [hv] at h1; exact absurd h1 (by simp)
  | some uid =>
    rw [hv] at h1
    dsimp only at h1
    cases hf : db.tokens.find? (fun r => decide (r.tokenHash = rt ∧ r.userID = uid)) with
    | none => rw [hf] at h1; exact absurd h1 (by simp)
    | some storedToken =>
      rw [hf] at h1
      dsimp only at h1
      cases hu : db.users.find? (fun u => decide (u.id = uid)) with
      | none => rw [hu] at h1; exact absurd h1 (by simp)
      | some user =>
        rw [hu] at h1
        simp only [Prod.mk.injEq, RefreshResponse.okPair.injEq] at h1
        obtain ⟨⟨-, hr⟩, -⟩ := h1
        intro hcontra
        apply h2
        have hexp := congrArg (fun t => t.payload.exp) (hr.trans hcontra)
        simpa [generateTokenPair, signedString, Payload.exp] using hexp

/-- Witness for amended C2: rotating `rt50` at time 100 returns a token
distinct from `rt50`. -/
theorem refresh_token_rotates_to_distinct_witness :
    refreshSession testCfg 100 testDB50 rt50 =
      (RefreshResponse.okPair (signedString "access-secret" (.access ⟨1, "user", 1000⟩))
        (signedString "refresh-secret" (.refresh ⟨1, 100 + 86400 * 7⟩)),
        { users := [testUser],
          tokens := [⟨2, 1, signedString "refresh-secret" (.refresh ⟨1, 100 + 86400 * 7⟩),
            604900⟩],
          nextID := 3 }) ∧
    100 + 86400 * testCfg.refreshExpiry ≠ rt50.payload.exp ∧
    signedString "refresh-secret" (.refresh ⟨1, 100 + 86400 * 7⟩) ≠ rt50 :=
  ⟨by decide, by decide,
    refresh_token_rotates_to_distinct testCfg 100 testDB50
      { users := [testUser],
        tokens := [⟨2, 1, signedString "refresh-secret" (.refresh ⟨1, 100 + 86400 * 7⟩),
          604900⟩],
        nextID := 3 }
      rt50 (signedString "access-secret" (.access ⟨1, "user", 1000⟩))
      (signedString "refresh-secret" (.refresh ⟨1, 100 + 86400 * 7⟩))
      (by decide) (by decide)⟩

/-- Counterexample to C1 as stated: rotating `rt100` at time 100 — the same
second it was issued — stores a new Session Record for a refresh token
identical to `rt100`, so a second `RefreshToken` call with the consumed
`rt100` succeeds again instead of being rejected. -/
theorem refresh_reuse_accepted_counterexample :
    (refreshSession testCfg 100 testDB rt100).1 =
      RefreshResponse.okPair (signedString "access-secret" (.access ⟨1, "user", 1000⟩))
        rt100 ∧
    (refreshSession testCfg 100 (refreshSession testCfg 100 testDB rt100).2 rt100).1 =
      RefreshResponse.okPair (signedString "access-secret" (.access ⟨1, "user", 1000⟩))
        rt100 := by
  exact ⟨by decide, by decide⟩

/-- C1 (amended): after a successful `RefreshSession(rt1)` that hands back a
refresh token different from `rt1`, a second `RefreshSession(rt1)` — at any
time — returns Rejected, provided the pre-state backed `rt1` by at most one
Session Record.  (Both provisos fail only when two token issuances for the
same user fall in the same clock second, making the token strings collide.) -/
theorem refresh_rotation_invalidates (cfg : Config) (now1 now2 : Nat) (db db1 : DB)
    (rt1 a2 rt2 : Jwt)
    (h1 : refreshSession cfg now1 db rt1 = (.okPair a2 rt2, db1))
    (h2 : rt2 ≠ rt1)
    (huniq : ∀ r ∈ db.tokens, ∀ s ∈ db.tokens,
      r.tokenHash = rt1 ∧ r.userID = rt1.payload.userID →
      s.tokenHash = rt1 ∧ s.userID = rt1.payload.userID → r = s) :
    (refreshSession cfg now2 db1 rt1).1 = RefreshResponse.invalidRefreshToken := by
  unfold refreshSession at h1
  cases hv : validateRefreshToken now1 rt1 cfg.refreshSecret with
  | none => rw [hv] at h1; exact absurd h1 (by simp)
  | some uid =>
    rw [hv] at h1
    dsimp only at h1
    have huid : uid = rt1.payload.userID := validateRefreshToken_userID _ _ _ _ hv
    subst huid
    cases hf : db.tokens.find?
        (fun r => decide (r.tokenHash = rt1 ∧ r.userID = rt1.payload.userID)) with
    | none => rw [hf] at h1; exact absurd h1 (by simp)
    | some storedToken =>
      rw [hf] at h1
      dsimp only at h1
      cases hu : db.users.find? (fun u => decide (u.id = rt1.payload.userID)) with
      | none => rw [hu] at h1; exact absurd h1 (by simp)
      | some user =>
        rw [hu] at h1
        simp only [Prod.mk.injEq, RefreshResponse.okPair.injEq] at h1
        obtain ⟨⟨-, hr⟩, hdb⟩ := h1
        have hstored_mem : storedToken ∈ db.tokens := List.mem_of_find?_eq_some hf
        have hstored_pred : storedToken.tokenHash = rt1 ∧
            storedToken.userID = rt1.payload.userID := by
          have hp := List.find?_some hf
          simpa using hp
        unfold refreshSession
        cases hv2 : validateRefreshToken now2 rt1 cfg.refreshSecret with
        | none => rfl
        | some uid2 =>
          dsimp only
          have huid2 : uid2 = rt1.payload.userID := validateRefreshToken_userID _ _ _ _ hv2
          subst huid2
          have hnone : db1.tokens.find?
              (fun r => decide (r.tokenHash = rt1 ∧ r.userID = rt1.payload.userID)) = none := by
            rw [List.find?_eq_none]
            intro x hx
            rw [← hdb] at hx
            simp only [List.mem_append, List.mem_filter, List.mem_singleton,
              decide_eq_true_eq] at hx
            simp only [decide_eq_true_eq]
            rintro ⟨hxt, hxu⟩
            rcases hx with ⟨hxmem, hxid⟩ | hxnew
            · exact hxid (congrArg RefreshTokenRecord.id
                (huniq x hxmem storedToken hstored_mem ⟨hxt, hxu⟩ hstored_pred))
            · apply h2
              rw [← hr, ← hxt, hxnew]
          rw [hnone]
/-- Witness for amended C1: `rt50` rotated at time 100 from a store backing
it by a single record; the reuse at time 200 is rejected. -/
theorem refresh_rotation_invalidates_witness :
    refreshSession testCfg 100 testDB50 rt50 =
      (RefreshResponse.okPair (signedString "access-secret" (.access ⟨1, "user", 1000⟩))
        (signedString "refresh-secret" (.refresh ⟨1, 100 + 86400 * 7⟩)),
        { users := [testUser],
          tokens := [⟨2, 1, signedString "refresh-secret" (.refresh ⟨1, 100 + 86400 * 7⟩),
            604900⟩],
          nextID := 3 }) ∧
    signedString "refresh-secret" (.refresh ⟨1, 100 + 86400 * 7⟩) ≠ rt50 ∧
    (∀ r ∈ testDB50.tokens, ∀ s ∈ testDB50.tokens,
      r.tokenHash = rt50 ∧ r.userID = rt50.payload.userID →
      s.tokenHash = rt50 ∧ s.userID = rt50.payload.userID → r = s) ∧
    (refreshSession testCfg 200
      { users := [testUser],
        tokens := [⟨2, 1, signedString "refresh-secret" (.refresh ⟨1, 100 + 86400 * 7⟩),
          604900⟩],
        nextID := 3 }
      rt50).1 = RefreshResponse.invalidRefreshToken :=
  ⟨by decide, by decide, by decide,
    refresh_rotation_invalidates testCfg 100 200 testDB50
      { users := [testUser],
        tokens := [⟨2, 1, signedString "refresh-secret" (.refresh ⟨1, 100 + 86400 * 7⟩),
          604900⟩],
        nextID := 3 }
      rt50 (signedString "access-secret" (.access ⟨1, "user", 1000⟩))
      (signedString "refresh-secret" (.refresh ⟨1, 100 + 86400 * 7⟩))
      (by decide) (by decide) (by decide)⟩

end UserManagementAPI
